import Mathlib

/-!
Verification of `nilmtk/electricitymeter.py` (class `ElectricityMeter`).

The Python class keeps two process-wide class attributes, the device-profile
catalog `ElectricityMeter.meter_devices` and the meter registry
`ElectricityMeter.meters`.  We embed them as an explicit `GlobalState` value
threaded through every operation.  Python dictionaries observed only through
lookup (`d[k]`, `d.get(k)`) are embedded extensionally as functions
`K → Option V`; `dict.update` becomes `dictUpdate` below.

External collaborator modules imported by the source file
(`nilmtk.pipeline`, `nilmtk.datastore.Key`, `nilmtk.measurement.Power`,
`nilmtk.appliance.Appliance`) are part of this repository but are not in the
sources provided; each of their embeddings below is marked
`Modelled from the spec:` and follows the specification text.
-/

namespace Nilmtk

/-- Python `dict.update(items)`: for each `(k, v)` in `items`, in order,
rebind `k` to `v` (insert or overwrite).  The dictionary is embedded
extensionally, as the function answering lookups. -/
def dictUpdate {K V : Type} [DecidableEq K] (d : K → Option V) (items : List (K × V)) :
    K → Option V :=
  items.foldl (fun acc p => fun k => if k = p.1 then some p.2 else acc k) d

/-- Modelled from the spec: `nilmtk.measurement` (not under the provided
sources).  A measurement type; `Power` carries an alternating-current type tag
(`ac_type`, e.g. "active"), `Voltage` is a non-power measurement type. -/
inductive Measurement where
  | Power (ac_type : String)
  | Voltage
deriving DecidableEq, Repr

/-- `isinstance(m, Power)` on the embedded measurement type. -/
def Measurement.isPower : Measurement → Bool
  | .Power _ => true
  | .Voltage => false

/-- A device capability profile: a value of the `meter_devices` catalog.
The source only ever reads the `measurements` entry of a profile
(`available_ac_types`); the remaining documented fields are carried so that
distinct profiles are distinct values. -/
structure DeviceProfile where
  manufacturer : String
  model : String
  measurements : List Measurement
deriving DecidableEq, Repr

/-- Modelled from the spec: appliance metadata handed to
`nilmtk.appliance.Appliance` (not under the provided sources). -/
structure ApplianceMetadata where
  appliance_type : String
  inst : Nat
deriving DecidableEq, Repr

/-- Modelled from the spec: `nilmtk.appliance.Appliance`, instantiated from one
metadata entry at load time. -/
structure Appliance where
  metadata : ApplianceMetadata
deriving DecidableEq, Repr

/-- The meter metadata dictionary.  Each key read by the source is a field;
a Python key that may be absent is an `Option` (absence is `none`).
`additional_channels` and `appliances` are only ever read through
`.get(key, [])`, so absence and `[]` are observationally equal and both are
embedded as the plain list. -/
structure Metadata where
  inst : Option Int
  building : Option Int
  dataset : Option String
  submeter_of : Option Int
  upstream_meter_in_building : Option Int
  additional_channels : List Nat
  device_model : Option String
  appliances : List ApplianceMetadata
  device : Option DeviceProfile
deriving DecidableEq, Repr

/-- The empty metadata dictionary `{}`. -/
def Metadata.empty : Metadata :=
  { inst := none, building := none, dataset := none, submeter_of := none,
    upstream_meter_in_building := none, additional_channels := [],
    device_model := none, appliances := [], device := none }

/-- `ElectricityMeterID = namedtuple(..., ['instance', 'building', 'dataset'])`.
Fields are filled with `metadata.get(...)`, so each is an `Option`. -/
structure ElectricityMeterID where
  inst : Option Int
  building : Option Int
  dataset : Option String
deriving DecidableEq, Repr

/-- Embedded Python exceptions raised by the source, one constructor per
exception class.  The specification names them by role:
`UnknownDeviceError` / `UnknownMeterError` are the `KeyError`s of the two
registry lookups, `NoUpstreamError` and `InvalidTopologyError` are the two
`ValueError`s of `upstream_meter` (distinguished by message),
`StoreNotSetError` is the `RuntimeError` of `_run_pipeline`, and
`DivisionByZeroError` is `ZeroDivisionError`. -/
inductive PyError where
  | AssertionError
  | KeyError (key : String)
  | KeyErrorMeter (id : ElectricityMeterID)
  | ValueError (msg : String)
  | RuntimeError (msg : String)
  | ZeroDivisionError
  | TypeError (msg : String)
deriving DecidableEq, Repr

/-- Modelled from the spec: `nilmtk.datastore.Key` (not under the provided
sources).  A storage key parses to addressing fields, of which the source
reads and writes only `meter`; the building field stands for the remaining
addressing fields that a derived sibling key must leave unchanged. -/
structure Key where
  building : Option Nat
  meter : Option Nat
deriving DecidableEq, Repr

/-- Modelled from the spec: `str(key_obj)` — renders the key back to its
string form `/building{b}/elec/meter{m}`, omitting absent fields. -/
def Key.toStr (k : Key) : String :=
  (match k.building with
   | some b => "/building" ++ toString b
   | none => "") ++
  (match k.meter with
   | some m => "/elec/meter" ++ toString m
   | none => "")

/-- Split a character list at every `/`. -/
def splitSlash : List Char → List (List Char)
  | [] => [[]]
  | c :: cs =>
    if c = '/' then [] :: splitSlash cs
    else
      match splitSlash cs with
      | [] => [[c]]
      | seg :: rest => (c :: seg) :: rest

/-- Strip a literal character prefix, returning the remainder when it
matches. -/
def stripLead : List Char → List Char → Option (List Char)
  | [], rest => some rest
  | _ :: _, [] => none
  | p :: ps, c :: cs => if c = p then stripLead ps cs else none

/-- Parse a non-empty all-digit character list as a decimal number. -/
def charsToNat? (cs : List Char) : Option Nat :=
  if cs = [] then none
  else
    cs.foldl
      (fun acc c =>
        match acc with
        | none => none
        | some n => if c.isDigit then some (n * 10 + (c.toNat - 48)) else none)
      (some 0)

/-- Modelled from the spec: `Key(key_string)` — parses the addressing fields
out of a `/`-separated key string such as `/building1/elec/meter2`; a segment
that does not parse leaves the field `none` (a null meter address). -/
def Key.ofStr (s : String) : Key :=
  let segs := splitSlash s.data
  { building := segs.findSome? (fun seg =>
      match stripLead "building".data seg with
      | some rest => charsToNat? rest
      | none => none),
    meter := segs.findSome? (fun seg =>
      match stripLead "meter".data seg with
      | some rest => charsToNat? rest
      | none => none) }

/-- Modelled from the spec: the store contract (external collaborator).
`load_metadata` answers per-meter keys; `root_meter_devices` is
`load_metadata('/').get('meter_devices', {})`, the dataset-root device
profiles as key/profile items in iteration order. -/
structure DataStore where
  load_metadata : String → Metadata
  root_meter_devices : List (String × DeviceProfile)

/-- The instance state of one `ElectricityMeter` object: exactly the
attributes assigned by `__init__` and `load`. -/
structure ElectricityMeter where
  store : Option DataStore
  keys : List String
  appliances : List Appliance
  metadata : Metadata

/-- The process-wide class attributes `ElectricityMeter.meter_devices`
(device-model name to profile) and `ElectricityMeter.meters`
(`ElectricityMeterID` to meter). -/
structure GlobalState where
  meter_devices : String → Option DeviceProfile
  meters : ElectricityMeterID → Option ElectricityMeter

/-- `identifier` property: `ElectricityMeterID(md.get('instance'),
md.get('building'), md.get('dataset'))`. -/
def ElectricityMeter.identifier (self : ElectricityMeter) : ElectricityMeterID :=
  { inst := self.metadata.inst,
    building := self.metadata.building,
    dataset := self.metadata.dataset }

/-- `__init__(metadata=None)`: empty store, keys and appliances, the given
metadata (or `{}`), then `ElectricityMeter.meters[self.identifier] = self`. -/
def ElectricityMeter.init (metadata : Option Metadata) (g : GlobalState) :
    ElectricityMeter × GlobalState :=
  let self : ElectricityMeter :=
    { store := none, keys := [], appliances := [],
      metadata := metadata.getD Metadata.empty }
  (self,
   { g with meters := fun i => if i = self.identifier then some self else g.meters i })

/-- `_load_meter_devices(store)`:
`meter_devices.update(store.load_metadata('/').get('meter_devices', {}))`. -/
def loadMeterDevices (g : GlobalState) (store : DataStore) : GlobalState :=
  { g with meter_devices := dictUpdate g.meter_devices store.root_meter_devices }

/-- `load(store, key)`.  Every Python statement is one binding, in source
order; the returned triple is the meter state, the global state and the
exception (if one was raised) at the moment control leaves the method, so
partially-applied effects of a failing call are observable. -/
def ElectricityMeter.load (self : ElectricityMeter) (g : GlobalState)
    (store : DataStore) (key : String) :
    ElectricityMeter × GlobalState × Option PyError :=
  let self := { self with store := some store }
  let self := { self with metadata := store.load_metadata key }
  let self := { self with keys := [key] }
  let key_obj := Key.ofStr key
  match key_obj.meter with
  | none => (self, g, some .AssertionError)
  | some _ =>
    let self := { self with
      keys := self.keys ++ self.metadata.additional_channels.map
        (fun chan => Key.toStr { key_obj with meter := some chan }) }
    let g := loadMeterDevices g store
    match self.metadata.device_model with
    | none => (self, g, some (.KeyError "device_model"))
    | some device_model =>
      match g.meter_devices device_model with
      | none => (self, g, some (.KeyError device_model))
      | some profile =>
        let self := { self with metadata := { self.metadata with device := some profile } }
        let self := { self with
          appliances := self.appliances ++ self.metadata.appliances.map Appliance.mk }
        let g := { g with
          meters := fun i => if i = self.identifier then some self else g.meters i }
        (self, g, none)

/-- `device` property: `meter_devices[metadata['device_model']]`, re-resolved
against the current registry on every access; a missing key raises
`KeyError`. -/
def ElectricityMeter.device (self : ElectricityMeter) (g : GlobalState) :
    Except PyError DeviceProfile :=
  match self.metadata.device_model with
  | none => .error (.KeyError "device_model")
  | some device_model =>
    match g.meter_devices device_model with
    | none => .error (.KeyError device_model)
    | some profile => .ok profile

/-- `available_ac_types()`:
`[m.ac_type for m in self.device['measurements'] if isinstance(m, Power)]`. -/
def ElectricityMeter.available_ac_types (self : ElectricityMeter) (g : GlobalState) :
    Except PyError (List String) :=
  (self.device g).map (fun d =>
    d.measurements.filterMap (fun m =>
      match m with
      | .Power ac_type => some ac_type
      | .Voltage => none))

/-- `upstream_meter` property, statement by statement from the source:
check `submeter_of`, default the building, build the upstream
`ElectricityMeterID`, look it up in `ElectricityMeter.meters`. -/
def ElectricityMeter.upstream_meter (self : ElectricityMeter) (g : GlobalState) :
    Except PyError ElectricityMeter :=
  match self.metadata.submeter_of with
  | none => .error (.ValueError "This meter has no submeter_of metadata attribute.")
  | some submeter_of =>
    if submeter_of ≤ 0 then
      .error (.ValueError "submeter_of must be >= 1.")
    else
      let upstream_meter_in_building :=
        match self.metadata.upstream_meter_in_building with
        | none => self.identifier.building
        | some b => some b
      let id_of_upstream : ElectricityMeterID :=
        { inst := some submeter_of,
          building := upstream_meter_in_building,
          dataset := self.identifier.dataset }
      match g.meters id_of_upstream with
      | none => .error (.KeyErrorMeter id_of_upstream)
      | some upstream => .ok upstream

/-- Modelled from the spec: a time interval of plausible readings
(`nilmtk.TimeFrame`, not under the provided sources); the source only passes
these values through. -/
structure TimeFrame where
  start : Int
  stop : Int
deriving DecidableEq, Repr

/-- The pipeline node classes named by the source
(`from .pipeline import ClipNode, EnergyNode, LocateGoodSectionsNode`); a
value of this type records that one node object was constructed. -/
inductive NodeKind where
  | ClipNode
  | EnergyNode
  | LocateGoodSectionsNode
deriving DecidableEq, Repr

/-- Modelled from the spec: a computed artifact in the pipeline results
mapping — an energy figure for the `energy` key, a sequence of time intervals
for the `good_sections` key. -/
inductive ResultValue where
  | energy (e : ℚ)
  | sections (s : List TimeFrame)
deriving DecidableEq, Repr

/-- Modelled from the spec: `pipeline.results`, a mapping from string
result-name to computed artifact. -/
structure PipelineResults where
  lookup : String → Option ResultValue

/-- Modelled from the spec: the external pipeline engine.  `run` consumes the
ordered node sequence, the meter and the `timeframes` load argument (the only
`load_kwargs` entry the source ever passes; `none` when not passed) and is
deterministic for fixed arguments. -/
structure PipelineEngine where
  run : List NodeKind → ElectricityMeter → Option (List TimeFrame) → PipelineResults

/-- `_run_pipeline(nodes, **load_kwargs)`: raise `RuntimeError` if
`self.store is None`, else build the pipeline, run it and return its
results. -/
def ElectricityMeter.run_pipeline (self : ElectricityMeter) (pipe : PipelineEngine)
    (nodes : List NodeKind) (timeframes : Option (List TimeFrame)) :
    Except PyError PipelineResults :=
  match self.store with
  | none => .error (.RuntimeError
      "meter.store is not set! Cannot process data without a DataStore!")
  | some _ => .ok (pipe.run nodes self timeframes)

/-- `total_energy(**load_kwargs)`.  The first component records the node
objects constructed during the call: the list `[ClipNode(), EnergyNode()]` is
built before `_run_pipeline` is entered, hence before the store guard runs.
The second component is `results['energy']`. -/
def ElectricityMeter.total_energy (self : ElectricityMeter) (pipe : PipelineEngine)
    (timeframes : Option (List TimeFrame)) :
    List NodeKind × Except PyError ResultValue :=
  let nodes : List NodeKind := [.ClipNode, .EnergyNode]
  (nodes,
   match self.run_pipeline pipe nodes timeframes with
   | .error e => .error e
   | .ok results =>
     match results.lookup "energy" with
     | none => .error (.KeyError "energy")
     | some v => .ok v)

/-- `good_sections()`.  The first component records the constructed node
objects (`[LocateGoodSectionsNode()]`, built before the store guard); the
second is `results['good_sections']`. -/
def ElectricityMeter.good_sections (self : ElectricityMeter) (pipe : PipelineEngine) :
    List NodeKind × Except PyError ResultValue :=
  let nodes : List NodeKind := [.LocateGoodSectionsNode]
  (nodes,
   match self.run_pipeline pipe nodes none with
   | .error e => .error e
   | .ok results =>
     match results.lookup "good_sections" with
     | none => .error (.KeyError "good_sections")
     | some v => .ok v)

/-- Modelled from the spec: `good_timeframes()`, called on the mains meter by
`proportion_of_energy` but defined outside the provided sources — the good
timeframes of the meter, i.e. the good sections its pipeline locates. -/
def ElectricityMeter.good_timeframes (self : ElectricityMeter) (pipe : PipelineEngine) :
    Except PyError (List TimeFrame) :=
  match (self.good_sections pipe).2 with
  | .error e => .error e
  | .ok (.sections s) => .ok s
  | .ok (.energy _) => .error (.TypeError "good_sections did not return sections")

/-- Modelled from the spec: division of two energy results
(`EnergyResults.__div__` lives outside the provided sources) — division by a
zero mains energy is a defined failure, not silently coerced. -/
def ResultValue.div : ResultValue → ResultValue → Except PyError ResultValue
  | .energy a, .energy b =>
    if b = 0 then .error .ZeroDivisionError else .ok (.energy (a / b))
  | _, _ => .error (.TypeError "unsupported operand types for division")

/-- `proportion_of_energy(mains)`: mask out gaps from mains, then divide this
meter's total energy over the mains good timeframes by the mains total energy
over the same timeframes. -/
def ElectricityMeter.proportion_of_energy (self mains : ElectricityMeter)
    (pipe : PipelineEngine) : Except PyError ResultValue :=
  match mains.good_timeframes pipe with
  | .error e => .error e
  | .ok good_mains_timeframes =>
    match (self.total_energy pipe (some good_mains_timeframes)).2 with
    | .error e => .error e
    | .ok numerator =>
      match (mains.total_energy pipe (some good_mains_timeframes)).2 with
      | .error e => .error e
      | .ok denominator => numerator.div denominator

/-- The upstream identity constructed by `upstream_meter` for a meter whose
`submeter_of` is `s`: instance `s`, building from `upstream_meter_in_building`
if present else the meter's own building, dataset always inherited. -/
def upstreamID (m : ElectricityMeter) (s : Int) : ElectricityMeterID :=
  { inst := some s,
    building :=
      match m.metadata.upstream_meter_in_building with
      | none => m.identifier.building
      | some b => some b,
    dataset := m.identifier.dataset }

/-- `ac_type` attribute of a measurement.  In the source only `Power` objects
carry the attribute; `available_ac_types` reads it only after filtering to
power entries, so the value returned here for `Voltage` is never observed. -/
def Measurement.ac_type : Measurement → String
  | .Power a => a
  | .Voltage => ""

/-! ### Concrete fixtures used by the witness theorems -/

/-- The empty global state: no device profiles, no registered meters. -/
def gEmpty : GlobalState :=
  { meter_devices := fun _ => none, meters := fun _ => none }

/-- A device profile whose measurement list mixes power and voltage entries. -/
def profileX : DeviceProfile :=
  { manufacturer := "ACME", model := "modelX",
    measurements := [.Power "active", .Voltage, .Power "apparent"] }

/-- A second, different profile for the same model name. -/
def profileY : DeviceProfile :=
  { manufacturer := "ACME", model := "modelX",
    measurements := [.Power "reactive"] }

/-- Metadata of the site meter B in the scenario of the specification:
`{instance:1, building:1, dataset:'D'}`. -/
def metaB : Metadata :=
  { Metadata.empty with inst := some 1, building := some 1, dataset := some "D" }

/-- Metadata of the submeter A in the scenario of the specification:
`{instance:2, building:1, dataset:'D', submeter_of:1}`. -/
def metaA : Metadata :=
  { Metadata.empty with
    inst := some 2, building := some 1, dataset := some "D", submeter_of := some 1 }

/-- Construct B first (it registers itself). -/
def meterB : ElectricityMeter := (ElectricityMeter.init (some metaB) gEmpty).1

/-- Global state after constructing B. -/
def gAfterB : GlobalState := (ElectricityMeter.init (some metaB) gEmpty).2

/-- Construct A second. -/
def meterA : ElectricityMeter := (ElectricityMeter.init (some metaA) gAfterB).1

/-- Global state after constructing B then A. -/
def gAfterA : GlobalState := (ElectricityMeter.init (some metaA) gAfterB).2

/-- A meter whose metadata carries `submeter_of = 0`. -/
def meterSub0 : ElectricityMeter :=
  { store := none, keys := [], appliances := [],
    metadata := { Metadata.empty with submeter_of := some 0 } }

/-- A meter carrying only a resolvable `device_model`. -/
def meterDev : ElectricityMeter :=
  { store := none, keys := [], appliances := [],
    metadata := { Metadata.empty with device_model := some "modelX" } }

/-- A global state whose device catalog maps `modelX` to `profileX`. -/
def gDev : GlobalState :=
  { meter_devices := fun k => if k = "modelX" then some profileX else none,
    meters := fun _ => none }

/-- Metadata served by the fixture store for every meter key: a resolvable
device model and one additional channel, number 3. -/
def metaLoaded : Metadata :=
  { Metadata.empty with
    inst := some 5, building := some 1, dataset := some "REDD",
    device_model := some "modelX", additional_channels := [3] }

/-- Fixture store: serves `metaLoaded` for every meter key, and one device
profile (`modelX`) at the dataset root. -/
def store1 : DataStore :=
  { load_metadata := fun _ => metaLoaded,
    root_meter_devices := [("modelX", profileX)] }

/-- The primary key of the load scenario, addressing meter 2. -/
def keyPrim : String := "/building1/elec/meter2"

/-- A key whose parsed meter-address field is null. -/
def keyNoMeter : String := "/building1/elec"

/-- A freshly constructed meter (empty metadata, no store). -/
def mFresh : ElectricityMeter := (ElectricityMeter.init none gEmpty).1

/-- The global state after constructing `mFresh`. -/
def gFresh : GlobalState := (ElectricityMeter.init none gEmpty).2

/-- The outcome of loading `mFresh` from `store1` at `keyPrim`. -/
def loadResult : ElectricityMeter × GlobalState × Option PyError :=
  mFresh.load gFresh store1 keyPrim

/-- A pipeline engine that computes nothing. -/
def pipe0 : PipelineEngine :=
  { run := fun _ _ _ => { lookup := fun _ => none } }

/-- A pipeline engine whose energy result is 2 for the mains meter
(instance 1) and 3 for any other meter, with empty good sections. -/
def pipeEnergy : PipelineEngine :=
  { run := fun _ meter _ =>
      { lookup := fun s =>
          if s = "good_sections" then some (.sections [])
          else if s = "energy" then
            some (.energy (if meter.metadata.inst = some 1 then 2 else 3))
          else none } }

/-- A pipeline engine whose energy result is always zero. -/
def pipeZero : PipelineEngine :=
  { run := fun _ _ _ =>
      { lookup := fun s =>
          if s = "good_sections" then some (.sections [])
          else if s = "energy" then some (.energy 0)
          else none } }

/-- The mains meter of the proportion scenario. -/
def mMains : ElectricityMeter :=
  { store := some store1, keys := [], appliances := [],
    metadata := { Metadata.empty with inst := some 1 } }

/-- The submeter of the proportion scenario. -/
def mSub : ElectricityMeter :=
  { store := some store1, keys := [], appliances := [],
    metadata := { Metadata.empty with inst := some 2 } }

/-! ### Helper lemmas about the extensional dictionary embedding -/

theorem dictUpdate_nil {K V : Type} [DecidableEq K] (d : K → Option V) :
    dictUpdate d [] = d := rfl

theorem dictUpdate_cons {K V : Type} [DecidableEq K] (d : K → Option V)
    (p : K × V) (items : List (K × V)) :
    dictUpdate d (p :: items) =
      dictUpdate (fun k => if k = p.1 then some p.2 else d k) items := rfl

/-- The value of an updated dictionary at `k` depends only on the base value
at `k`, unless `k` is one of the updated keys (then it does not depend on the
base at all). -/
theorem dictUpdate_congr {K V : Type} [DecidableEq K]
    (items : List (K × V)) (f g : K → Option V) (k : K)
    (h : f k = g k ∨ k ∈ items.map Prod.fst) :
    dictUpdate f items k = dictUpdate g items k := by
  induction items generalizing f g with
  | nil =>
    rcases h with h | h
    · exact h
    · simp at h
  | cons p items ih =>
    rw [dictUpdate_cons, dictUpdate_cons]
    apply ih
    by_cases hk : k = p.1
    · left; simp [hk]
    · rcases h with h | h
      · left; simp [hk, h]
      · right
        simp only [List.map_cons, List.mem_cons] at h
        rcases h with h | h
        · exact absurd h hk
        · exact h

/-- A key not touched by the update keeps its base value. -/
theorem dictUpdate_not_mem {K V : Type} [DecidableEq K]
    (items : List (K × V)) (d : K → Option V) (k : K)
    (h : k ∉ items.map Prod.fst) :
    dictUpdate d items k = d k := by
  induction items generalizing d with
  | nil => rfl
  | cons p items ih =>
    simp only [List.map_cons, List.mem_cons, not_or] at h
    rw [dictUpdate_cons, ih _ h.2]
    simp [h.1]

/-- Updating twice with the same items is the same as updating once. -/
theorem dictUpdate_absorb {K V : Type} [DecidableEq K]
    (items : List (K × V)) (d : K → Option V) (k : K) :
    dictUpdate (dictUpdate d items) items k = dictUpdate d items k := by
  induction items generalizing d with
  | nil => rfl
  | cons p items ih =>
    show dictUpdate
        (fun x => if x = p.1 then some p.2
          else dictUpdate (fun y => if y = p.1 then some p.2 else d y) items x) items k
      = dictUpdate (fun y => if y = p.1 then some p.2 else d y) items k
    by_cases hmem : k ∈ items.map Prod.fst
    · calc dictUpdate
            (fun x => if x = p.1 then some p.2
              else dictUpdate (fun y => if y = p.1 then some p.2 else d y) items x) items k
          = dictUpdate (dictUpdate (fun y => if y = p.1 then some p.2 else d y) items) items k :=
            dictUpdate_congr items _ _ k (Or.inr hmem)
        _ = dictUpdate (fun y => if y = p.1 then some p.2 else d y) items k := ih _
    · rw [dictUpdate_not_mem items _ k hmem, dictUpdate_not_mem items _ k hmem]
      by_cases hk : k = p.1 <;> simp [hk, dictUpdate_not_mem items _ k hmem]

/-! ### C8 -/

/-- C8: the device-profile load/merge path is idempotent — running
`_load_meter_devices` a second time with the same dataset-level metadata
leaves the process-wide device registry (and the whole global state) exactly
as after running it once. -/
theorem load_meter_devices_idempotent (g : GlobalState) (store : DataStore) :
    loadMeterDevices (loadMeterDevices g store) store = loadMeterDevices g store := by
  have h : dictUpdate (dictUpdate g.meter_devices store.root_meter_devices)
      store.root_meter_devices = dictUpdate g.meter_devices store.root_meter_devices :=
    funext (fun k => dictUpdate_absorb store.root_meter_devices g.meter_devices k)
  simp [loadMeterDevices, h]

/-! ### C2 -/

/-- C2: reading `upstream_meter` with `submeter_of` absent raises the
no-upstream `ValueError` (the specification's `NoUpstreamError`), and reading
it with `submeter_of < 1` raises the invalid-topology `ValueError` (the
specification's `InvalidTopologyError`); the two raised values are distinct,
hence distinguishable. -/
theorem upstream_meter_error_kinds (m : ElectricityMeter) (g : GlobalState) :
    (m.metadata.submeter_of = none →
      m.upstream_meter g =
        .error (.ValueError "This meter has no submeter_of metadata attribute.")) ∧
    (∀ s : Int, m.metadata.submeter_of = some s → s < 1 →
      m.upstream_meter g = .error (.ValueError "submeter_of must be >= 1.")) ∧
    PyError.ValueError "This meter has no submeter_of metadata attribute." ≠
      PyError.ValueError "submeter_of must be >= 1." := by
  refine ⟨fun h => ?_, fun s hs hlt => ?_, by decide⟩
  · simp [ElectricityMeter.upstream_meter, h]
  · have hle : s ≤ 0 := by omega
    simp [ElectricityMeter.upstream_meter, hs, hle]

/-- C2 witness: a freshly constructed meter with empty metadata raises the
no-upstream error; a meter with `submeter_of = 0` raises the
invalid-topology error. -/
theorem upstream_meter_error_kinds_witness :
    (ElectricityMeter.init none gEmpty).1.upstream_meter gEmpty =
      .error (.ValueError "This meter has no submeter_of metadata attribute.") ∧
    meterSub0.upstream_meter gEmpty =
      .error (.ValueError "submeter_of must be >= 1.") :=
  ⟨(upstream_meter_error_kinds (ElectricityMeter.init none gEmpty).1 gEmpty).1 rfl,
   (upstream_meter_error_kinds meterSub0 gEmpty).2.1 0 rfl (by decide)⟩

/-! ### C1 -/

/-- C1: for a meter with `submeter_of = s ≥ 1`, `upstream_meter` resolves the
upstream identity `upstreamID` through the process-wide meter registry and
returns the registered meter; if no meter is registered under that identity
it fails with the registry `KeyError` (the specification's
`UnknownMeterError`). -/
theorem upstream_meter_resolves (m : ElectricityMeter) (g : GlobalState) (s : Int)
    (h1 : m.metadata.submeter_of = some s) (h2 : 1 ≤ s) :
    (∀ u, g.meters (upstreamID m s) = some u → m.upstream_meter g = .ok u) ∧
    (g.meters (upstreamID m s) = none →
      m.upstream_meter g = .error (.KeyErrorMeter (upstreamID m s))) := by
  have hle : ¬ s ≤ 0 := by omega
  constructor
  · intro u hu
    simp only [ElectricityMeter.upstream_meter, h1, hle, if_false, upstreamID] at hu ⊢
    rw [hu]
  · intro hn
    simp only [ElectricityMeter.upstream_meter, h1, hle, if_false, upstreamID] at hn ⊢
    rw [hn]

/-- C1 witness: the scenario of the specification — meter B
`{instance:1, building:1, dataset:'D'}` is registered first, meter A
`{instance:2, building:1, dataset:'D', submeter_of:1}` second; `A.upstream_meter`
returns B. -/
theorem upstream_meter_resolves_witness :
    meterA.upstream_meter gAfterA = .ok meterB :=
  (upstream_meter_resolves meterA gAfterA 1 rfl (by decide)).1 meterB rfl

/-! ### C6 -/

/-- Filtering to power entries and then reading the tag is the same as the
one-pass comprehension of the source. -/
theorem power_filterMap_eq (l : List Measurement) :
    (l.filterMap (fun m =>
      match m with
      | .Power ac_type => some ac_type
      | .Voltage => none)) =
      (l.filter Measurement.isPower).map Measurement.ac_type := by
  induction l with
  | nil => rfl
  | cons m l ih => cases m <;> simp [Measurement.isPower, Measurement.ac_type, ih]

/-- C6: when the device profile resolves, `available_ac_types()` returns
exactly the `ac_type` tags of the power-type entries of the device's
measurement list, in the list's original order (non-power entries excluded,
no reordering, no deduplication). -/
theorem available_ac_types_power_tags (m : ElectricityMeter) (g : GlobalState)
    (d : DeviceProfile) (h : m.device g = .ok d) :
    m.available_ac_types g =
      .ok ((d.measurements.filter Measurement.isPower).map Measurement.ac_type) := by
  simp [ElectricityMeter.available_ac_types, h, power_filterMap_eq, Except.map]

/-- C6 witness: a profile measuring `[Power "active", Voltage,
Power "apparent"]` yields exactly `["active", "apparent"]`. -/
theorem available_ac_types_power_tags_witness :
    meterDev.available_ac_types gDev = .ok ["active", "apparent"] :=
  Eq.trans (available_ac_types_power_tags meterDev gDev profileX rfl) rfl

/-! ### Characterization of a successful `load` -/

/-- A successful `load(store, key)` resolved a non-null meter address, a
device model and a profile, set the meter attributes as the source does and
re-registered the final meter under its identity, leaving every other
registry entry unchanged. -/
theorem load_ok {self self2 : ElectricityMeter} {g g2 : GlobalState}
    {store : DataStore} {key : String}
    (h : self.load g store key = (self2, g2, none)) :
    ∃ dm profile,
      (store.load_metadata key).device_model = some dm ∧
      dictUpdate g.meter_devices store.root_meter_devices dm = some profile ∧
      self2 = { store := some store,
                keys := key :: (store.load_metadata key).additional_channels.map
                  (fun chan => Key.toStr { Key.ofStr key with meter := some chan }),
                appliances := self.appliances ++
                  (store.load_metadata key).appliances.map Appliance.mk,
                metadata := { store.load_metadata key with device := some profile } } ∧
      g2 = { meter_devices := dictUpdate g.meter_devices store.root_meter_devices,
             meters := fun i => if i = self2.identifier then some self2 else g.meters i } := by
  simp only [ElectricityMeter.load, loadMeterDevices] at h
  cases hk : (Key.ofStr key).meter with
  | none => simp only [hk] at h; simp at h
  | some km =>
    simp only [hk] at h
    cases hdm : (store.load_metadata key).device_model with
    | none => simp only [hdm] at h; simp at h
    | some dm =>
      simp only [hdm] at h
      cases hprof : dictUpdate g.meter_devices store.root_meter_devices dm with
      | none => simp only [hprof] at h; simp at h
      | some profile =>
        simp only [hprof, Prod.mk.injEq] at h
        obtain ⟨hself, hg2, -⟩ := h
        refine ⟨dm, profile, rfl, hprof, ?_, ?_⟩
        · rw [← hself]
          simp [hdm]
        · rw [← hg2, ← hself]

/-! ### C5 -/

/-- C5: after a successful `load(store, key)`, the keys list is exactly the
primary key followed by one derived key per entry of
`metadata['additional_channels']`, in source order, each derived key being
the parsed primary key with only its meter-address field replaced by the
channel number. -/
theorem load_keys_derivation (self self2 : ElectricityMeter) (g g2 : GlobalState)
    (store : DataStore) (key : String)
    (h : self.load g store key = (self2, g2, none)) :
    self2.keys = key :: (store.load_metadata key).additional_channels.map
      (fun chan => Key.toStr { Key.ofStr key with meter := some chan }) := by
  obtain ⟨dm, profile, -, -, hself, -⟩ := load_ok h
  rw [hself]

/-- C5 witness: `additional_channels: [3]` on a primary key addressing meter 2
yields the primary key followed by the derived key with meter 3. -/
theorem load_keys_derivation_witness :
    loadResult.1.keys = ["/building1/elec/meter2", "/building1/elec/meter3"] :=
  Eq.trans
    (load_keys_derivation mFresh loadResult.1 gFresh loadResult.2.1 store1 keyPrim rfl)
    (by decide)

/-! ### C7 -/

/-- C7: a meter is registered in the process-wide registry under its identity
at construction and again at load completion; the registration inserts or
overwrites in place (last-load-wins) and touches no other identity. -/
theorem registry_registration :
    (∀ (md : Option Metadata) (g : GlobalState),
      (ElectricityMeter.init md g).2.meters (ElectricityMeter.init md g).1.identifier =
        some (ElectricityMeter.init md g).1) ∧
    (∀ (self self2 : ElectricityMeter) (g g2 : GlobalState) (store : DataStore) (key : String),
      self.load g store key = (self2, g2, none) →
      g2.meters self2.identifier = some self2 ∧
      ∀ i, i ≠ self2.identifier → g2.meters i = g.meters i) := by
  constructor
  · intro md g
    simp [ElectricityMeter.init]
  · intro self self2 g g2 store key h
    obtain ⟨dm, profile, -, -, hself, hg2⟩ := load_ok h
    subst hg2
    refine ⟨by simp, fun i hi => by simp [hi]⟩

/-- C7 witness: the constructed meter B is registered under its identity, and
the loaded fixture meter is registered under its identity at load
completion. -/
theorem registry_registration_witness :
    gAfterB.meters meterB.identifier = some meterB ∧
    loadResult.2.1.meters loadResult.1.identifier = some loadResult.1 :=
  ⟨registry_registration.1 (some metaB) gEmpty,
   (registry_registration.2 mFresh loadResult.1 gFresh loadResult.2.1 store1 keyPrim rfl).1⟩

/-! ### C9 -/

/-- C9: a successful load caches in `metadata['device']` the profile resolved
at load time; a later registry update that rebinds the same model name does
not change the cached entry, while the derived `device` property re-resolves
against the current registry on every access. -/
theorem device_snapshot_vs_live (self self2 : ElectricityMeter) (g g2 : GlobalState)
    (store : DataStore) (key : String) (dm : String) (p : DeviceProfile)
    (h : self.load g store key = (self2, g2, none))
    (hdm : (store.load_metadata key).device_model = some dm)
    (hp : g2.meter_devices dm = some p) :
    self2.metadata.device = some p ∧
    ∀ (new : List (String × DeviceProfile)) (q : DeviceProfile),
      dictUpdate g2.meter_devices new dm = some q →
      self2.metadata.device = some p ∧
      self2.device { g2 with meter_devices := dictUpdate g2.meter_devices new } = .ok q := by
  obtain ⟨dm2, profile, hdm2, hprof, hself, hg2⟩ := load_ok h
  rw [hdm] at hdm2
  injection hdm2 with hdmeq
  subst hdmeq
  have hpd : self2.metadata.device = some p := by
    rw [hg2] at hp
    simp only at hp
    rw [hprof] at hp
    injection hp with hpe
    rw [hself, hpe]
  refine ⟨hpd, fun new q hq => ⟨hpd, ?_⟩⟩
  have hdm3 : self2.metadata.device_model = some dm := by
    rw [hself]
    exact hdm
  simp [ElectricityMeter.device, hdm3, hq]

/-- C9 witness: after the fixture load, the cached device is `profileX`;
rebinding `modelX` to `profileY` in the registry leaves the cached entry at
`profileX` while the derived `device` property returns `profileY`. -/
theorem device_snapshot_vs_live_witness :
    loadResult.1.metadata.device = some profileX ∧
    loadResult.1.device
      { loadResult.2.1 with
        meter_devices := dictUpdate loadResult.2.1.meter_devices [("modelX", profileY)] } =
      .ok profileY :=
  ⟨(device_snapshot_vs_live mFresh loadResult.1 gFresh loadResult.2.1 store1 keyPrim
      "modelX" profileX rfl rfl rfl).1,
   ((device_snapshot_vs_live mFresh loadResult.1 gFresh loadResult.2.1 store1 keyPrim
      "modelX" profileX rfl rfl rfl).2 [("modelX", profileY)] profileY rfl).2⟩

/-! ### C10 -/

/-- C10: when the key parses to a null meter-address field, `load` raises the
assertion error, but at that point the store, metadata and keys have already
been replaced; the global state — hence the meter registry — is untouched, so
the meter is not re-registered. -/
theorem load_partial_on_null_meter (self : ElectricityMeter) (g : GlobalState)
    (store : DataStore) (key : String) (h : (Key.ofStr key).meter = none) :
    self.load g store key =
      ({ store := some store,
         keys := [key],
         appliances := self.appliances,
         metadata := store.load_metadata key }, g, some .AssertionError) := by
  simp [ElectricityMeter.load, h]

/-- C10 witness: loading the fixture meter at a key with no meter segment
fails with the assertion error after replacing store, metadata and keys,
leaving the global state unchanged. -/
theorem load_partial_on_null_meter_witness :
    mFresh.load gFresh store1 keyNoMeter =
      ({ store := some store1,
         keys := [keyNoMeter],
         appliances := [],
         metadata := metaLoaded }, gFresh, some .AssertionError) :=
  load_partial_on_null_meter mFresh gFresh store1 keyNoMeter rfl

/-! ### C3 -/

/-- C3 counterexample: with the store unset, `total_energy()` does fail with
the store-not-set error, yet the pipeline node objects have been constructed:
the constructed-node trace of the call is `[ClipNode, EnergyNode]`, not
empty as the claim states. -/
theorem store_guard_nodes_counterexample :
    (mFresh.total_energy pipe0 none).2 =
      .error (.RuntimeError "meter.store is not set! Cannot process data without a DataStore!") ∧
    (mFresh.total_energy pipe0 none).1 = [NodeKind.ClipNode, NodeKind.EnergyNode] ∧
    (mFresh.total_energy pipe0 none).1 ≠ [] :=
  ⟨rfl, rfl, by decide⟩

/-- C3 (amended): for every meter whose store is unset, `total_energy()` and
`good_sections()` fail with the store-not-set `RuntimeError` (the
specification's `StoreNotSetError`) before the pipeline object is built and
run, but the node objects are constructed before the guard is evaluated: the
calls construct `[ClipNode, EnergyNode]` and `[LocateGoodSectionsNode]`
respectively. -/
theorem store_guard_after_node_construction (m : ElectricityMeter)
    (pipe : PipelineEngine) (tf : Option (List TimeFrame)) (h : m.store = none) :
    (m.total_energy pipe tf).2 =
      .error (.RuntimeError "meter.store is not set! Cannot process data without a DataStore!") ∧
    (m.total_energy pipe tf).1 = [NodeKind.ClipNode, NodeKind.EnergyNode] ∧
    (m.good_sections pipe).2 =
      .error (.RuntimeError "meter.store is not set! Cannot process data without a DataStore!") ∧
    (m.good_sections pipe).1 = [NodeKind.LocateGoodSectionsNode] := by
  refine ⟨?_, rfl, ?_, rfl⟩ <;>
    simp [ElectricityMeter.total_energy, ElectricityMeter.good_sections,
      ElectricityMeter.run_pipeline, h]

/-- C3 (amended) witness: the fresh meter has no store; its `total_energy`
fails with the store error and its `good_sections` call constructed the
locate-good-sections node. -/
theorem store_guard_after_node_construction_witness :
    (mFresh.total_energy pipe0 none).2 =
      .error (.RuntimeError "meter.store is not set! Cannot process data without a DataStore!") ∧
    (mFresh.good_sections pipe0).1 = [NodeKind.LocateGoodSectionsNode] :=
  ⟨(store_guard_after_node_construction mFresh pipe0 none rfl).1,
   (store_guard_after_node_construction mFresh pipe0 none rfl).2.2.2⟩

/-! ### C4 -/

/-- C4: `proportion_of_energy(mains)` divides this meter's total energy over
the mains good timeframes by the mains total energy over the same timeframes;
a zero mains energy is the division-by-zero failure, not NaN, zero or
infinity. -/
theorem proportion_of_energy_division (self mains : ElectricityMeter)
    (pipe : PipelineEngine) (gmt : List TimeFrame) (a b : ℚ)
    (h1 : mains.good_timeframes pipe = .ok gmt)
    (h2 : (self.total_energy pipe (some gmt)).2 = .ok (.energy a))
    (h3 : (mains.total_energy pipe (some gmt)).2 = .ok (.energy b)) :
    (b ≠ 0 → self.proportion_of_energy mains pipe = .ok (.energy (a / b))) ∧
    (b = 0 → self.proportion_of_energy mains pipe = .error .ZeroDivisionError) := by
  constructor <;> intro hb <;>
    simp [ElectricityMeter.proportion_of_energy, h1, h2, h3, ResultValue.div, hb]

/-- C4 witness: with energies 3 and 2 the proportion is 3/2; with a
zero-energy mains the call fails with the division-by-zero error. -/
theorem proportion_of_energy_division_witness :
    mSub.proportion_of_energy mMains pipeEnergy = .ok (.energy (3 / 2)) ∧
    mSub.proportion_of_energy mMains pipeZero = .error .ZeroDivisionError :=
  ⟨(proportion_of_energy_division mSub mMains pipeEnergy [] 3 2 rfl rfl rfl).1 (by norm_num),
   (proportion_of_energy_division mSub mMains pipeZero [] 0 0 rfl rfl rfl).2 rfl⟩

end Nilmtk
